import Mathlib

/-!
Shallow embedding of the svg2glif conversion pipeline (src/lib.rs).

Numeric values are modelled over the rationals; the Rust code computes with
f32/f64, and `f32::round` (round half away from zero) is modelled by
`rustRound`.  Parsing backends (roxmltree, svgtypes string parsers, norad Name
validation) are external collaborators: the document tree, transforms, lengths
and path segments arrive pre-parsed, and the anchor-name validity check of the
norad library is a parameter `nameValid` of the functions that use it.
-/

namespace SvgToGlif

/-- Affine transform with six coefficients, the svgtypes Transform record. -/
structure Transform where
  a : ℚ
  b : ℚ
  c : ℚ
  d : ℚ
  e : ℚ
  f : ℚ
deriving DecidableEq, Repr

/-- The identity transform, Transform::default in the source. -/
def Transform.id : Transform := ⟨1, 0, 0, 1, 0, 0⟩

/-- multiply, src/lib.rs lines 153-162. -/
def multiply (ts1 ts2 : Transform) : Transform where
  a := ts1.a * ts2.a + ts1.c * ts2.b
  b := ts1.b * ts2.a + ts1.d * ts2.b
  c := ts1.a * ts2.c + ts1.c * ts2.d
  d := ts1.b * ts2.c + ts1.d * ts2.d
  e := ts1.a * ts2.e + ts1.c * ts2.f + ts1.e
  f := ts1.b * ts2.e + ts1.d * ts2.f + ts1.f

/-- apply_transform, src/lib.rs lines 164-168. -/
def apply_transform (t : Transform) (x y : ℚ) : ℚ × ℚ :=
  (t.a * x + t.c * y + t.e, t.b * x + t.d * y + t.f)

/-- Floor of a rational, computed with floor division of the numerator. -/
def ratFloor (q : ℚ) : ℤ := Int.fdiv q.num q.den

/-- Ceiling of a rational. -/
def ratCeil (q : ℚ) : ℤ := -(ratFloor (-q))

/-- Round half away from zero: the behaviour of f32::round used by svg_to_ufo. -/
def rustRound (q : ℚ) : ℤ :=
  if 0 ≤ q then ratFloor (q + 1 / 2) else ratCeil (q - 1 / 2)

/-- svg_to_ufo, src/lib.rs lines 407-412: scale x, flip y and offset by the
descent, then round both coordinates. -/
def svg_to_ufo (sx sy svg_height descent scale : ℚ) : ℤ × ℤ :=
  (rustRound (sx * scale), rustRound ((svg_height - descent - sy) * scale))

/-- norad PointType (the variants used by the converter). -/
inductive PointType where
  | move
  | line
  | offCurve
  | curve
  | qcurve
deriving DecidableEq, Repr

/-- norad ContourPoint as constructed by the converter: integral destination
coordinates, a point type and the smooth flag. -/
structure ContourPoint where
  x : ℤ
  y : ℤ
  typ : PointType
  smooth : Bool
deriving DecidableEq, Repr

/-- svgtypes SimplePathSegment: absolute, pre-normalized path commands. -/
inductive Segment where
  | moveTo (x y : ℚ)
  | lineTo (x y : ℚ)
  | curveTo (x1 y1 x2 y2 x y : ℚ)
  | quadratic (x1 y1 x y : ℚ)
  | closePath
deriving DecidableEq, Repr

/-- Transform a source point and map it to destination space, producing a
contour point; the per-point work repeated in process_path_data. -/
def mkPoint (t : Transform) (h d s x y : ℚ) (typ : PointType) (smooth : Bool) :
    ContourPoint :=
  let p := apply_transform t x y
  let q := svg_to_ufo p.1 p.2 h d s
  ⟨q.1, q.2, typ, smooth⟩

/-- The loop state of process_path_data: finished contours and the current
contour buffer. -/
structure PathState where
  contours : List (List ContourPoint)
  current : List ContourPoint
deriving DecidableEq, Repr

/-- Flush the current buffer into the output list when it is non-empty
(the `if !current_contour.is_empty()` pattern of src/lib.rs). -/
def flush (st : PathState) : PathState :=
  if st.current.isEmpty then st else ⟨st.contours ++ [st.current], []⟩

/-- One iteration of the segment loop of process_path_data,
src/lib.rs lines 264-352. -/
def processSegment (t : Transform) (h d s : ℚ) (st : PathState) :
    Segment → PathState
  | .moveTo x y =>
      ⟨(flush st).contours, [mkPoint t h d s x y PointType.curve true]⟩
  | .lineTo x y =>
      ⟨st.contours, st.current ++ [mkPoint t h d s x y PointType.line false]⟩
  | .curveTo x1 y1 x2 y2 x y =>
      ⟨st.contours,
        st.current ++
          [mkPoint t h d s x1 y1 PointType.offCurve false,
           mkPoint t h d s x2 y2 PointType.offCurve false,
           mkPoint t h d s x y PointType.curve true]⟩
  | .quadratic _ _ _ _ => st
  | .closePath => flush st

/-- The segment loop plus the final flush of the remaining buffer,
src/lib.rs lines 255-357 (before closing-point elision). -/
def processSegments (segs : List Segment) (t : Transform) (h d s : ℚ) :
    List (List ContourPoint) :=
  (flush (segs.foldl (processSegment t h d s) ⟨[], []⟩)).contours

/-- Closing-point elision, src/lib.rs lines 360-369: drop the last point when
the contour has more than one point and first and last coordinates agree. -/
def elideClose (c : List ContourPoint) : List ContourPoint :=
  match c.head?, c.getLast? with
  | some p, some q =>
      if 1 < c.length ∧ p.x = q.x ∧ p.y = q.y then c.dropLast else c
  | _, _ => c

/-- process_path_data, src/lib.rs lines 248-372. -/
def process_path_data (segs : List Segment) (t : Transform) (h d s : ℚ) :
    List (List ContourPoint) :=
  (processSegments segs t h d s).map elideClose

/-- svgtypes LengthUnit. -/
inductive LengthUnit where
  | none
  | em
  | ex
  | px
  | inch
  | cm
  | mm
  | pt
  | pc
  | percent
deriving DecidableEq, Repr

/-- svgtypes Length: a number with a unit, as produced by the external string
parser. -/
structure Length where
  number : ℚ
  unit : LengthUnit
deriving DecidableEq, Repr

/-- parse_length, src/lib.rs lines 240-246, on an already-parsed Length:
accept unitless and pixel lengths, reject every other unit. -/
def parse_length (l : Length) : Except String ℚ :=
  match l.unit with
  | LengthUnit.none => Except.ok l.number
  | LengthUnit.px => Except.ok l.number
  | _ => Except.error "unsupported length unit"

/-- norad Anchor as constructed by the extractor. -/
structure Anchor where
  x : ℤ
  y : ℤ
  name : String
deriving DecidableEq, Repr

/-- Coordinate of a text node from an optional attribute:
`attribute.and_then(parse_length.ok).unwrap_or(0.0)`,
src/lib.rs lines 389-396. -/
def attrCoord (a : Option Length) : ℚ :=
  ((a.bind fun l => (parse_length l).toOption).getD 0)

/-- The str::trim of the anchor name: drop leading and trailing whitespace. -/
def strTrim (s : String) : String :=
  ⟨((s.data.dropWhile Char.isWhitespace).reverse.dropWhile
      Char.isWhitespace).reverse⟩

/-- process_text_as_anchor, src/lib.rs lines 374-405.  `nameValid` is the
validity check of the external norad Name type; `text` is the node text
content, `xa`/`ya` its optional x/y attributes. -/
def process_text_as_anchor (nameValid : String → Bool) (text : Option String)
    (xa ya : Option Length) (t : Transform) (h d s : ℚ) : Option Anchor :=
  match text with
  | Option.none => Option.none
  | some content =>
      if strTrim content = "" then Option.none
      else
        let p := apply_transform t (attrCoord xa) (attrCoord ya)
        let q := svg_to_ufo p.1 p.2 h d s
        if nameValid (strTrim content) then some ⟨q.1, q.2, strTrim content⟩
        else Option.none

/-- The glyph record built by the conversion (codepoint assignment is trivial
passthrough and out of scope). -/
structure Glyph where
  name : String
  width : ℤ
  height : ℤ
  contours : List (List ContourPoint)
  anchors : List Anchor
deriving DecidableEq, Repr

/-- A pre-parsed SVG element: path and text leaves, groups, and unknown
elements that are traversed transparently. -/
inductive SvgNode where
  | path (transform : Option Transform) (d : Option (List Segment))
  | text (transform : Option Transform) (content : Option String)
      (x y : Option Length)
  | group (transform : Option Transform) (children : List SvgNode)
  | other (transform : Option Transform) (children : List SvgNode)

/-- The transform composition at the top of process_svg_node,
src/lib.rs lines 179-184. -/
def currentTransform (parent : Transform) (attr : Option Transform) :
    Transform :=
  match attr with
  | some t => multiply parent t
  | Option.none => parent

mutual

/-- process_svg_node, src/lib.rs lines 170-238, over the pre-parsed tree. -/
def processNode (nv : String → Bool) (h d s : ℚ) (g : Glyph)
    (parent : Transform) : SvgNode → Glyph
  | .path tf dAttr =>
      match dAttr with
      | some segs =>
          { g with contours :=
              g.contours ++ process_path_data segs (currentTransform parent tf) h d s }
      | Option.none => g
  | .text tf content xa ya =>
      match process_text_as_anchor nv content xa ya
          (currentTransform parent tf) h d s with
      | some a => { g with anchors := g.anchors ++ [a] }
      | Option.none => g
  | .group tf cs => processChildren nv h d s g (currentTransform parent tf) cs
  | .other tf cs => processChildren nv h d s g (currentTransform parent tf) cs

/-- Recursion over the element children of a container node. -/
def processChildren (nv : String → Bool) (h d s : ℚ) (g : Glyph)
    (ct : Transform) : List SvgNode → Glyph
  | [] => g
  | c :: rest => processChildren nv h d s (processNode nv h d s g ct c) ct rest

end

/-- The conversion configuration (unicode passthrough omitted as out of
scope). -/
structure ConversionConfig where
  em_size : ℚ
  descent : ℚ
  name : Option String

/-- A pre-parsed SVG document: the width/height attributes of the root element
and the root element itself. -/
structure SvgDoc where
  width : Option Length
  height : Option Length
  root : SvgNode

/-- convert_svg_string_to_glyph, src/lib.rs lines 74-123: parse the root
dimensions (defaulting to 100), compute the scale and advance, then walk the
tree from the identity transform.  `fileStem` stands for the input file stem
used as a fallback glyph name. -/
def convert_svg (nv : String → Bool) (doc : SvgDoc) (fileStem : Option String)
    (cfg : ConversionConfig) : Except String Glyph := do
  let svg_width ← parse_length (doc.width.getD ⟨100, LengthUnit.none⟩)
  let svg_height ← parse_length (doc.height.getD ⟨100, LengthUnit.none⟩)
  let scale := cfg.em_size / svg_height
  let glyph_name := (cfg.name.orElse fun _ => fileStem).getD "svgglyph"
  let g : Glyph :=
    ⟨glyph_name, rustRound (svg_width * scale), rustRound (svg_height * scale),
      [], []⟩
  pure (processNode nv svg_height cfg.descent scale g Transform.id doc.root)

end SvgToGlif

namespace SvgToGlif

/-! ## Helper lemmas -/

/-- Flushing twice is the same as flushing once. -/
lemma flush_flush (st : PathState) : flush (flush st) = flush st := by
  cases hc : st.current with
  | nil => simp [flush, hc]
  | cons p ps => simp [flush, hc]

/-- After a flush the current buffer is empty. -/
lemma flush_current (st : PathState) : (flush st).current = [] := by
  cases hc : st.current with
  | nil => simp [flush, hc]
  | cons p ps => simp [flush, hc]

/-- Flushing preserves the concatenation of all points in document order. -/
lemma flush_join (st : PathState) :
    (flush st).contours.flatten ++ (flush st).current =
      st.contours.flatten ++ st.current := by
  cases hc : st.current with
  | nil => simp [flush, hc]
  | cons p ps => simp [flush, hc]

/-- Flushing a state whose finished contours are all non-empty yields only
non-empty contours. -/
lemma flush_ne_nil (st : PathState) (h : ∀ c ∈ st.contours, c ≠ []) :
    ∀ c ∈ (flush st).contours, c ≠ [] := by
  cases hc : st.current with
  | nil => simpa [flush, hc] using h
  | cons p ps =>
      intro c hm
      simp only [flush, hc, List.isEmpty_cons, Bool.false_eq_true, if_false,
        List.mem_append, List.mem_singleton] at hm
      rcases hm with hm | hm
      · exact h c hm
      · simp [hm]

/-- One loop iteration keeps every finished contour non-empty. -/
lemma processSegment_ne_nil (t : Transform) (h d s : ℚ) (st : PathState)
    (seg : Segment) (hst : ∀ c ∈ st.contours, c ≠ []) :
    ∀ c ∈ (processSegment t h d s st seg).contours, c ≠ [] := by
  cases seg with
  | moveTo x y => exact flush_ne_nil st hst
  | lineTo x y => exact hst
  | curveTo x1 y1 x2 y2 x y => exact hst
  | quadratic x1 y1 x y => exact hst
  | closePath => exact flush_ne_nil st hst

/-- The whole segment loop keeps every finished contour non-empty. -/
lemma foldl_processSegment_ne_nil (t : Transform) (h d s : ℚ) :
    ∀ (segs : List Segment) (st : PathState),
      (∀ c ∈ st.contours, c ≠ []) →
      ∀ c ∈ (segs.foldl (processSegment t h d s) st).contours, c ≠ [] := by
  intro segs
  induction segs with
  | nil => intro st hst; simpa using hst
  | cons seg rest ih =>
      intro st hst
      simpa using ih (processSegment t h d s st seg)
        (processSegment_ne_nil t h d s st seg hst)

/-- Every raw contour produced by the segment loop is non-empty. -/
lemma processSegments_ne_nil (segs : List Segment) (t : Transform) (h d s : ℚ) :
    ∀ c ∈ processSegments segs t h d s, c ≠ [] := by
  unfold processSegments
  exact flush_ne_nil _
    (foldl_processSegment_ne_nil t h d s segs ⟨[], []⟩ (by simp))

/-- Closing-point elision never empties a contour. -/
lemma elideClose_ne_nil (c : List ContourPoint) (hc : c ≠ []) :
    elideClose c ≠ [] := by
  unfold elideClose
  cases hh : c.head? with
  | none => simpa using hc
  | some p =>
      cases hl : c.getLast? with
      | none => simpa using hc
      | some q =>
          change (if 1 < c.length ∧ p.x = q.x ∧ p.y = q.y then c.dropLast else c) ≠ []
          by_cases hcond : 1 < c.length ∧ p.x = q.x ∧ p.y = q.y
          · rw [if_pos hcond]
            intro hnil
            have hlen : c.length - 1 = 0 := by
              rw [← List.length_dropLast, hnil]; rfl
            have h1 := hcond.1
            omega
          · rw [if_neg hcond]; exact hc

/-! ## Claim theorems -/

/-- C1: the coordinate mapper first applies the affine map
x2 = a*x + c*y + e, y2 = b*x + d*y + f, then returns destination
x = round(x2 * scale) and y = round((height - descent - y2) * scale); this is
how the converter builds every contour point. -/
theorem coordinate_mapper_formula :
    ∀ (t : Transform) (x y h d0 s : ℚ),
      (svg_to_ufo (apply_transform t x y).1 (apply_transform t x y).2 h d0 s =
        (rustRound ((t.a * x + t.c * y + t.e) * s),
         rustRound ((h - d0 - (t.b * x + t.d * y + t.f)) * s))) ∧
      ∀ (typ : PointType) (sm : Bool),
        mkPoint t h d0 s x y typ sm =
          ⟨rustRound ((t.a * x + t.c * y + t.e) * s),
           rustRound ((h - d0 - (t.b * x + t.d * y + t.f)) * s), typ, sm⟩ := by
  intro t x y h d0 s
  exact ⟨rfl, fun typ sm => rfl⟩

/-- C2: applying the product multiply(T1, T2) to a point equals applying T2
first and then T1, and the walker composes a nested transform as
parent times child. -/
theorem transform_composition :
    (∀ (ts1 ts2 : Transform) (x y : ℚ),
      apply_transform (multiply ts1 ts2) x y =
        apply_transform ts1 (apply_transform ts2 x y).1
          (apply_transform ts2 x y).2) ∧
    (∀ (parent child : Transform),
      currentTransform parent (some child) = multiply parent child) := by
  constructor
  · intro ts1 ts2 x y
    simp only [apply_transform, multiply, Prod.mk.injEq]
    constructor <;> ring
  · intro parent child
    rfl

/-- C3, counterexample: at the concrete input MoveTo(1,2) the single appended
point is smooth (the fourth norad argument is the smooth flag, passed as
true), so it is not an OnCurveCorner (on-curve, non-smooth) point. -/
theorem moveTo_corner_cex :
    ¬ (∀ p ∈ (processSegment Transform.id 100 0 1 ⟨[], []⟩
          (Segment.moveTo 1 2)).current, p.smooth = false) := by
  intro hall
  have h1 := hall (mkPoint Transform.id 100 0 1 1 2 PointType.curve true)
    (by simp [processSegment])
  simp [mkPoint] at h1

/-- C3, amended: every MoveTo appends exactly one point overall; the point is
on-curve of type Curve with the smooth flag set (not a corner), and it is the
first point of a freshly started contour buffer. -/
theorem moveTo_starts_contour :
    ∀ (t : Transform) (h d s : ℚ) (st : PathState) (x y : ℚ),
      ∃ p, (processSegment t h d s st (Segment.moveTo x y)).current = [p] ∧
        p.typ = PointType.curve ∧ p.smooth = true ∧
        (processSegment t h d s st (Segment.moveTo x y)).contours.flatten ++
            (processSegment t h d s st (Segment.moveTo x y)).current =
          st.contours.flatten ++ st.current ++ [p] := by
  intro t h d s st x y
  refine ⟨mkPoint t h d s x y PointType.curve true, rfl, rfl, rfl, ?_⟩
  have hj : (flush st).contours.flatten = st.contours.flatten ++ st.current := by
    have h2 := flush_join st
    rwa [flush_current, List.append_nil] at h2
  show (flush st).contours.flatten ++ [mkPoint t h d s x y PointType.curve true] =
    st.contours.flatten ++ st.current ++ [mkPoint t h d s x y PointType.curve true]
  rw [hj]

/-- C5: every CubicCurveTo appends exactly three points, in order two OffCurve
control points (each individually transformed and mapped) and then one
on-curve smooth end point; the finished contours are untouched. -/
theorem curveTo_three_points :
    ∀ (t : Transform) (h d s : ℚ) (st : PathState) (x1 y1 x2 y2 x y : ℚ),
      (processSegment t h d s st (Segment.curveTo x1 y1 x2 y2 x y)).contours =
        st.contours ∧
      (processSegment t h d s st (Segment.curveTo x1 y1 x2 y2 x y)).current =
        st.current ++
          [mkPoint t h d s x1 y1 PointType.offCurve false,
           mkPoint t h d s x2 y2 PointType.offCurve false,
           mkPoint t h d s x y PointType.curve true] ∧
      (processSegment t h d s st
          (Segment.curveTo x1 y1 x2 y2 x y)).current.map
            (fun p => (p.typ, p.smooth)) =
        st.current.map (fun p => (p.typ, p.smooth)) ++
          [(PointType.offCurve, false), (PointType.offCurve, false),
           (PointType.curve, true)] := by
  intro t h d s st x1 y1 x2 y2 x y
  refine ⟨rfl, rfl, ?_⟩
  simp [processSegment, mkPoint]

/-- C8: a QuadraticCurveTo is silently dropped: the state, and in particular
the current contour point count, is unchanged. -/
theorem quadratic_dropped :
    ∀ (t : Transform) (h d s : ℚ) (st : PathState) (x1 y1 x y : ℚ),
      processSegment t h d s st (Segment.quadratic x1 y1 x y) = st ∧
      (processSegment t h d s st
        (Segment.quadratic x1 y1 x y)).current.length = st.current.length := by
  intro t h d s st x1 y1 x y
  exact ⟨rfl, rfl⟩

/-- C6: ClosePath empties the buffer, appends no point, and pushes the buffer
as a contour exactly when it was non-empty; and a trailing flush happens for
unterminated paths, so appending a final ClosePath never changes the output. -/
theorem closePath_flushes :
    (∀ (t : Transform) (h d s : ℚ) (st : PathState),
      (processSegment t h d s st Segment.closePath).current = [] ∧
      (processSegment t h d s st Segment.closePath).contours.flatten ++
          (processSegment t h d s st Segment.closePath).current =
        st.contours.flatten ++ st.current ∧
      (processSegment t h d s st Segment.closePath).contours =
        (if st.current.isEmpty then st.contours
         else st.contours ++ [st.current])) ∧
    (∀ (segs : List Segment) (t : Transform) (h d s : ℚ),
      processSegments (segs ++ [Segment.closePath]) t h d s =
        processSegments segs t h d s) := by
  constructor
  · intro t h d s st
    refine ⟨flush_current st, flush_join st, ?_⟩
    cases hc : st.current with
    | nil => simp [processSegment, flush, hc]
    | cons p ps => simp [processSegment, flush, hc]
  · intro segs t h d s
    unfold processSegments
    rw [List.foldl_append]
    show (flush (processSegment t h d s
      (segs.foldl (processSegment t h d s) ⟨[], []⟩) Segment.closePath)).contours = _
    rw [show processSegment t h d s
        (segs.foldl (processSegment t h d s) ⟨[], []⟩) Segment.closePath =
      flush (segs.foldl (processSegment t h d s) ⟨[], []⟩) from rfl]
    rw [flush_flush]

/-- Evaluation of the converter on the path M 0 0, L 0 0, L 0 0, Z at scale 1
with height 100: three coincident points; elision pops one trailing point and
the returned contour still begins and ends at (0, 100). -/
lemma path_eval_MLLZ :
    process_path_data [Segment.moveTo 0 0, Segment.lineTo 0 0,
        Segment.lineTo 0 0, Segment.closePath] Transform.id 100 0 1 =
      [[⟨0, 100, PointType.curve, true⟩, ⟨0, 100, PointType.line, false⟩]] := by
  norm_num [process_path_data, processSegments, processSegment, flush,
    elideClose, mkPoint, apply_transform, svg_to_ufo, rustRound, ratFloor,
    Transform.id]
  all_goals decide

/-- Evaluation of the converter on the path M 0 0, L 10 0, Z at scale 1 with
height 100. -/
lemma path_eval_MLZ :
    process_path_data [Segment.moveTo 0 0, Segment.lineTo 10 0,
        Segment.closePath] Transform.id 100 0 1 =
      [[⟨0, 100, PointType.curve, true⟩, ⟨10, 100, PointType.line, false⟩]] := by
  norm_num [process_path_data, processSegments, processSegment, flush,
    elideClose, mkPoint, apply_transform, svg_to_ufo, rustRound, ratFloor,
    Transform.id]
  all_goals decide

/-- C4, counterexample: the path M 0 0, L 0 0, L 0 0, Z maps to a returned
contour of two points that still share identical destination coordinates
(0, 100): the elision pass removes only one trailing duplicate, so the
returned contour is not free of a trailing point duplicating the start. -/
theorem close_elision_cex :
    ¬ (∀ c ∈ process_path_data
          [Segment.moveTo 0 0, Segment.lineTo 0 0, Segment.lineTo 0 0,
           Segment.closePath] Transform.id 100 0 1,
        ∀ p0 p1, c.head? = some p0 → c.getLast? = some p1 →
          p0.x = p1.x ∧ p0.y = p1.y → c.length ≤ 1) := by
  intro hall
  have hm : [(⟨0, 100, PointType.curve, true⟩ : ContourPoint),
      ⟨0, 100, PointType.line, false⟩] ∈ process_path_data
        [Segment.moveTo 0 0, Segment.lineTo 0 0, Segment.lineTo 0 0,
         Segment.closePath] Transform.id 100 0 1 := by
    rw [path_eval_MLLZ]
    simp
  have h2 := hall _ hm ⟨0, 100, PointType.curve, true⟩
    ⟨0, 100, PointType.line, false⟩ rfl rfl ⟨rfl, rfl⟩
  simp at h2

/-- C4, amended: every returned contour is non-empty, and each is obtained
from a raw (pre-elision) contour by the single-step closing-point elision:
the trailing point is dropped exactly when the raw contour has more than one
point and its first and last coordinates coincide.  A returned contour may
therefore still have coinciding first and last coordinates when the raw
contour ended with several copies of the start coordinate. -/
theorem contour_nonempty_and_elision :
    ∀ (segs : List Segment) (t : Transform) (h d s : ℚ),
      ∀ c ∈ process_path_data segs t h d s,
        c ≠ [] ∧ ∃ r ∈ processSegments segs t h d s, c = elideClose r := by
  intro segs t h d s c hc
  unfold process_path_data at hc
  rcases List.mem_map.mp hc with ⟨r, hr, hrc⟩
  refine ⟨?_, r, hr, hrc.symm⟩
  rw [← hrc]
  exact elideClose_ne_nil r (processSegments_ne_nil segs t h d s r hr)

/-- C4, witness: the amended statement at the concrete path M 0 0, L 10 0, Z. -/
theorem contour_nonempty_and_elision_witness :
    ([⟨0, 100, PointType.curve, true⟩, ⟨10, 100, PointType.line, false⟩] :
        List ContourPoint) ≠ [] ∧
      ∃ r ∈ processSegments
          [Segment.moveTo 0 0, Segment.lineTo 10 0, Segment.closePath]
          Transform.id 100 0 1,
        [⟨0, 100, PointType.curve, true⟩, ⟨10, 100, PointType.line, false⟩] =
          elideClose r :=
  contour_nonempty_and_elision
    [Segment.moveTo 0 0, Segment.lineTo 10 0, Segment.closePath]
    Transform.id 100 0 1 _ (by rw [path_eval_MLZ]; simp)

/-- A length with any unit other than unitless or px is rejected. -/
lemma parse_length_bad (l : Length) (h1 : l.unit ≠ LengthUnit.none)
    (h2 : l.unit ≠ LengthUnit.px) :
    parse_length l = Except.error "unsupported length unit" := by
  obtain ⟨n, u⟩ := l
  cases u <;> first
    | rfl
    | exact absurd rfl h1
    | exact absurd rfl h2

/-- The only error the length parser emits is the unsupported-unit message. -/
lemma parse_length_error_msg (l : Length) (e : String)
    (h : parse_length l = Except.error e) : e = "unsupported length unit" := by
  obtain ⟨n, u⟩ := l
  cases u <;> simp [parse_length] at h <;> exact h.symm

/-- The anchor extractor on a node whose trimmed content is a valid name. -/
lemma process_text_valid (nv : String → Bool) (content : String)
    (xa ya : Option Length) (t : Transform) (h d s : ℚ)
    (h1 : strTrim content ≠ "") (h2 : nv (strTrim content) = true) :
    process_text_as_anchor nv (some content) xa ya t h d s =
      some ⟨(svg_to_ufo (apply_transform t (attrCoord xa) (attrCoord ya)).1
               (apply_transform t (attrCoord xa) (attrCoord ya)).2 h d s).1,
            (svg_to_ufo (apply_transform t (attrCoord xa) (attrCoord ya)).1
               (apply_transform t (attrCoord xa) (attrCoord ya)).2 h d s).2,
            strTrim content⟩ := by
  simp [process_text_as_anchor, h1, h2]

/-- A bad unit on the root width attribute aborts the conversion. -/
lemma convert_width_error (nv : String → Bool) (doc : SvgDoc)
    (fs : Option String) (cfg : ConversionConfig) (l : Length)
    (hw : doc.width = some l) (h1 : l.unit ≠ LengthUnit.none)
    (h2 : l.unit ≠ LengthUnit.px) :
    convert_svg nv doc fs cfg = Except.error "unsupported length unit" := by
  unfold convert_svg
  rw [hw]
  simp [parse_length_bad l h1 h2, Bind.bind, Except.bind]

/-- A bad unit on the root height attribute aborts the conversion. -/
lemma convert_height_error (nv : String → Bool) (doc : SvgDoc)
    (fs : Option String) (cfg : ConversionConfig) (l : Length)
    (hh : doc.height = some l) (h1 : l.unit ≠ LengthUnit.none)
    (h2 : l.unit ≠ LengthUnit.px) :
    convert_svg nv doc fs cfg = Except.error "unsupported length unit" := by
  unfold convert_svg
  rw [hh]
  cases hpw : parse_length (doc.width.getD ⟨100, LengthUnit.none⟩) with
  | error e =>
      have he := parse_length_error_msg _ e hpw
      simp [hpw, he, Bind.bind, Except.bind]
  | ok w =>
      simp [hpw, parse_length_bad l h1 h2, Bind.bind, Except.bind]

/-- C7: a text node with no text content, or content trimming to the empty
string, yields no anchor and the walker continues unchanged; when the trimmed
content is a valid non-empty name, exactly one anchor is produced, named by
the trimmed content and positioned at the x/y attributes (default 0,0)
transformed and mapped to destination space. -/
theorem text_anchor_extraction :
    (∀ (nv : String → Bool) (xa ya : Option Length) (t : Transform)
        (h d s : ℚ),
      process_text_as_anchor nv Option.none xa ya t h d s = Option.none) ∧
    (∀ (nv : String → Bool) (content : String) (xa ya : Option Length)
        (t : Transform) (h d s : ℚ), strTrim content = "" →
      process_text_as_anchor nv (some content) xa ya t h d s = Option.none) ∧
    (∀ (nv : String → Bool) (content : String) (xa ya : Option Length)
        (t : Transform) (h d s : ℚ),
      strTrim content ≠ "" → nv (strTrim content) = true →
      process_text_as_anchor nv (some content) xa ya t h d s =
        some ⟨(svg_to_ufo (apply_transform t (attrCoord xa) (attrCoord ya)).1
                 (apply_transform t (attrCoord xa) (attrCoord ya)).2 h d s).1,
              (svg_to_ufo (apply_transform t (attrCoord xa) (attrCoord ya)).1
                 (apply_transform t (attrCoord xa) (attrCoord ya)).2 h d s).2,
              strTrim content⟩) ∧
    (∀ (nv : String → Bool) (h d s : ℚ) (g : Glyph) (parent : Transform)
        (tf : Option Transform) (content : Option String)
        (xa ya : Option Length),
      process_text_as_anchor nv content xa ya (currentTransform parent tf)
          h d s = Option.none →
      processNode nv h d s g parent (SvgNode.text tf content xa ya) = g) := by
  refine ⟨fun nv xa ya t h d s => rfl, ?_, ?_, ?_⟩
  · intro nv content xa ya t h d s h1
    simp [process_text_as_anchor, h1]
  · intro nv content xa ya t h d s h1 h2
    exact process_text_valid nv content xa ya t h d s h1 h2
  · intro nv h d s g parent tf content xa ya hnone
    simp only [processNode]
    rw [hnone]

/-- C7, witness: the text node with content " top " at x=5, y=5, identity
transform, height 100, descent 0, scale 10 yields the single anchor named
"top" at destination (50, 950). -/
theorem text_anchor_extraction_witness :
    process_text_as_anchor (fun _ => true) (some " top ")
        (some ⟨5, LengthUnit.none⟩) (some ⟨5, LengthUnit.none⟩)
        Transform.id 100 0 10 = some ⟨50, 950, "top"⟩ := by
  have h3 := text_anchor_extraction.2.2.1 (fun _ => true) " top "
    (some ⟨5, LengthUnit.none⟩) (some ⟨5, LengthUnit.none⟩)
    Transform.id 100 0 10 (by decide) rfl
  rw [h3]
  norm_num [attrCoord, parse_length, Except.toOption, Option.getD,
    apply_transform, svg_to_ufo, rustRound, ratFloor, Transform.id]
  all_goals decide

/-- C9: the length parser accepts unitless and pixel lengths and rejects every
other unit with an error, and a rejected unit on the root width or height
attribute makes the whole conversion return the error instead of a glyph. -/
theorem unit_validation :
    (∀ n : ℚ, parse_length ⟨n, LengthUnit.none⟩ = Except.ok n ∧
      parse_length ⟨n, LengthUnit.px⟩ = Except.ok n) ∧
    (∀ l : Length, l.unit ≠ LengthUnit.none → l.unit ≠ LengthUnit.px →
      parse_length l = Except.error "unsupported length unit") ∧
    (∀ (nv : String → Bool) (doc : SvgDoc) (fs : Option String)
        (cfg : ConversionConfig) (l : Length), doc.width = some l →
      l.unit ≠ LengthUnit.none → l.unit ≠ LengthUnit.px →
      convert_svg nv doc fs cfg = Except.error "unsupported length unit") ∧
    (∀ (nv : String → Bool) (doc : SvgDoc) (fs : Option String)
        (cfg : ConversionConfig) (l : Length), doc.height = some l →
      l.unit ≠ LengthUnit.none → l.unit ≠ LengthUnit.px →
      convert_svg nv doc fs cfg = Except.error "unsupported length unit") := by
  refine ⟨fun n => ⟨rfl, rfl⟩, parse_length_bad, ?_, ?_⟩
  · intro nv doc fs cfg l hw h1 h2
    exact convert_width_error nv doc fs cfg l hw h1 h2
  · intro nv doc fs cfg l hh h1 h2
    exact convert_height_error nv doc fs cfg l hh h1 h2

/-- C9, witness: a document whose width attribute is 100pt is rejected by the
conversion with the unsupported-unit error. -/
theorem unit_validation_witness :
    convert_svg (fun _ => true)
        ⟨some ⟨100, LengthUnit.pt⟩, Option.none, SvgNode.group Option.none []⟩
        Option.none ⟨1000, 200, Option.none⟩ =
      Except.error "unsupported length unit" :=
  unit_validation.2.2.1 (fun _ => true)
    ⟨some ⟨100, LengthUnit.pt⟩, Option.none, SvgNode.group Option.none []⟩
    Option.none ⟨1000, 200, Option.none⟩ ⟨100, LengthUnit.pt⟩ rfl
    (by decide) (by decide)

/-- C10: an x or y attribute of a text node whose unit the length parser
rejects is silently replaced by 0 and an anchor is still produced, exactly as
if that attribute were absent, while the same length as the root width or
height attribute is fatal to the conversion. -/
theorem text_coord_fallback :
    (∀ (nv : String → Bool) (content : String) (xl : Length)
      (ya : Option Length) (t : Transform) (h d s : ℚ),
      strTrim content ≠ "" → nv (strTrim content) = true →
      xl.unit ≠ LengthUnit.none → xl.unit ≠ LengthUnit.px →
      (∃ e, parse_length xl = Except.error e) ∧
      process_text_as_anchor nv (some content) (some xl) ya t h d s =
        process_text_as_anchor nv (some content) Option.none ya t h d s ∧
      process_text_as_anchor nv (some content) (some xl) ya t h d s =
        some ⟨(svg_to_ufo (apply_transform t 0 (attrCoord ya)).1
                 (apply_transform t 0 (attrCoord ya)).2 h d s).1,
              (svg_to_ufo (apply_transform t 0 (attrCoord ya)).1
                 (apply_transform t 0 (attrCoord ya)).2 h d s).2,
              strTrim content⟩ ∧
      (∀ (doc : SvgDoc) (fs : Option String) (cfg : ConversionConfig),
        doc.width = some xl →
        convert_svg nv doc fs cfg = Except.error "unsupported length unit")) ∧
    (∀ (nv : String → Bool) (content : String) (xa : Option Length)
      (yl : Length) (t : Transform) (h d s : ℚ),
      strTrim content ≠ "" → nv (strTrim content) = true →
      yl.unit ≠ LengthUnit.none → yl.unit ≠ LengthUnit.px →
      (∃ e, parse_length yl = Except.error e) ∧
      process_text_as_anchor nv (some content) xa (some yl) t h d s =
        process_text_as_anchor nv (some content) xa Option.none t h d s ∧
      process_text_as_anchor nv (some content) xa (some yl) t h d s =
        some ⟨(svg_to_ufo (apply_transform t (attrCoord xa) 0).1
                 (apply_transform t (attrCoord xa) 0).2 h d s).1,
              (svg_to_ufo (apply_transform t (attrCoord xa) 0).1
                 (apply_transform t (attrCoord xa) 0).2 h d s).2,
              strTrim content⟩ ∧
      (∀ (doc : SvgDoc) (fs : Option String) (cfg : ConversionConfig),
        doc.height = some yl →
        convert_svg nv doc fs cfg = Except.error "unsupported length unit")) := by
  constructor
  · intro nv content xl ya t h d s h1 h2 hx1 hx2
    have hbad := parse_length_bad xl hx1 hx2
    have hzero : attrCoord (some xl) = 0 := by
      simp [attrCoord, hbad, Except.toOption]
    have hnone : attrCoord Option.none = 0 := rfl
    refine ⟨⟨"unsupported length unit", hbad⟩, ?_, ?_, ?_⟩
    · rw [process_text_valid nv content (some xl) ya t h d s h1 h2,
        process_text_valid nv content Option.none ya t h d s h1 h2, hzero,
        hnone]
    · rw [process_text_valid nv content (some xl) ya t h d s h1 h2, hzero]
    · intro doc fs cfg hw
      exact convert_width_error nv doc fs cfg xl hw hx1 hx2
  · intro nv content xa yl t h d s h1 h2 hy1 hy2
    have hbad := parse_length_bad yl hy1 hy2
    have hzero : attrCoord (some yl) = 0 := by
      simp [attrCoord, hbad, Except.toOption]
    have hnone : attrCoord Option.none = 0 := rfl
    refine ⟨⟨"unsupported length unit", hbad⟩, ?_, ?_, ?_⟩
    · rw [process_text_valid nv content xa (some yl) t h d s h1 h2,
        process_text_valid nv content xa Option.none t h d s h1 h2, hzero,
        hnone]
    · rw [process_text_valid nv content xa (some yl) t h d s h1 h2, hzero]
    · intro doc fs cfg hh
      exact convert_height_error nv doc fs cfg yl hh hy1 hy2

/-- C10, witness: the text node with content "top" and x attribute 7% (no y
attribute) still yields the anchor "top" with x treated as 0, and the text
node with content "top" and y attribute 7% (no x attribute) still yields the
anchor "top" with y treated as 0; identity transform, height 100, descent 0,
scale 1. -/
theorem text_coord_fallback_witness :
    ((∃ e, parse_length ⟨7, LengthUnit.percent⟩ = Except.error e) ∧
      process_text_as_anchor (fun _ => true) (some "top")
          (some ⟨7, LengthUnit.percent⟩) Option.none Transform.id 100 0 1 =
        process_text_as_anchor (fun _ => true) (some "top") Option.none
          Option.none Transform.id 100 0 1 ∧
      process_text_as_anchor (fun _ => true) (some "top")
          (some ⟨7, LengthUnit.percent⟩) Option.none Transform.id 100 0 1 =
        some ⟨(svg_to_ufo (apply_transform Transform.id 0
                  (attrCoord Option.none)).1
                 (apply_transform Transform.id 0 (attrCoord Option.none)).2
                 100 0 1).1,
              (svg_to_ufo (apply_transform Transform.id 0
                  (attrCoord Option.none)).1
                 (apply_transform Transform.id 0 (attrCoord Option.none)).2
                 100 0 1).2,
              strTrim "top"⟩ ∧
      (∀ (doc : SvgDoc) (fs : Option String) (cfg : ConversionConfig),
        doc.width = some ⟨7, LengthUnit.percent⟩ →
        convert_svg (fun _ => true) doc fs cfg =
          Except.error "unsupported length unit")) ∧
    ((∃ e, parse_length ⟨7, LengthUnit.percent⟩ = Except.error e) ∧
      process_text_as_anchor (fun _ => true) (some "top") Option.none
          (some ⟨7, LengthUnit.percent⟩) Transform.id 100 0 1 =
        process_text_as_anchor (fun _ => true) (some "top") Option.none
          Option.none Transform.id 100 0 1 ∧
      process_text_as_anchor (fun _ => true) (some "top") Option.none
          (some ⟨7, LengthUnit.percent⟩) Transform.id 100 0 1 =
        some ⟨(svg_to_ufo (apply_transform Transform.id
                  (attrCoord Option.none) 0).1
                 (apply_transform Transform.id (attrCoord Option.none) 0).2
                 100 0 1).1,
              (svg_to_ufo (apply_transform Transform.id
                  (attrCoord Option.none) 0).1
                 (apply_transform Transform.id (attrCoord Option.none) 0).2
                 100 0 1).2,
              strTrim "top"⟩ ∧
      (∀ (doc : SvgDoc) (fs : Option String) (cfg : ConversionConfig),
        doc.height = some ⟨7, LengthUnit.percent⟩ →
        convert_svg (fun _ => true) doc fs cfg =
          Except.error "unsupported length unit")) :=
  ⟨text_coord_fallback.1 (fun _ => true) "top" ⟨7, LengthUnit.percent⟩
      Option.none Transform.id 100 0 1 (by decide) rfl (by decide) (by decide),
    text_coord_fallback.2 (fun _ => true) "top" Option.none
      ⟨7, LengthUnit.percent⟩ Transform.id 100 0 1 (by decide) rfl (by decide)
      (by decide)⟩
